import Mathlib

set_option maxRecDepth 10000

/-
Verification of the capture-and-adjustment pipeline and the style-prompt
dispatch logic of the CARTOON-MAGIC web application.

The embedding follows the source files:
  * src/unnamed/part_002 : the Index page (session state, handleImageSelect,
    handleStyleChange, handleCartoonify) and the Deno edge function
    (request validation, style-prompt table, upstream relay).
  * src/src/components/ImageEditor.tsx : the adjustment stage
    (applyFilters, exportAdjustedImage, resetAdjustments).
  * src/src/components/ImageUploader.tsx : the capture source
    (startWebcam, stopWebcam, capturePhoto, deleteImage, selectImage).
  * src/src/components/StyleSelector.tsx : the CartoonStyle enumeration.

Effectful TypeScript is embedded as explicit state passing; the browser
and device boundary (canvas rendering, getUserMedia, the video element)
is abstracted as explicit inputs, following the capability-interface
decomposition the specification itself prescribes for testing.
-/

namespace CartoonMagic

/-! ## Style Registry

Source: src/src/components/StyleSelector.tsx lines 4-16 (the CartoonStyle
union type) and src/unnamed/part_002 lines 746-771 (the stylePrompts table
and its lookup in the edge function). -/

/-- The closed enumeration of style tags, from StyleSelector.tsx. -/
inductive CartoonStyle where
  | vibrant
  | anime
  | comic
  | watercolor
  | sketch
  | pixar
  | retro
  | noir
  | popart
  | oil
  | fantasy
  | minimalist
  deriving DecidableEq

/-- The wire string of each style tag (the TypeScript union is a union of
string literals, so each tag is its own wire string). -/
def CartoonStyle.key : CartoonStyle → String
  | .vibrant => "vibrant"
  | .anime => "anime"
  | .comic => "comic"
  | .watercolor => "watercolor"
  | .sketch => "sketch"
  | .pixar => "pixar"
  | .retro => "retro"
  | .noir => "noir"
  | .popart => "popart"
  | .oil => "oil"
  | .fantasy => "fantasy"
  | .minimalist => "minimalist"

/-- Instruction text of the vibrant entry of the stylePrompts table. -/
def vibrantPrompt : String :=
  "Transform this image into a vibrant cartoon style. Apply bold outlines, saturated colors, simplified shapes, and a playful artistic interpretation. Make it look like a hand-drawn animation or comic book illustration with enhanced colors and clear, defined edges."

/-- The stylePrompts table of the edge function, entry for entry. -/
def stylePrompts : List (String × String) :=
  [("vibrant", vibrantPrompt),
   ("anime", "Transform this image into a beautiful anime/manga style. Use large expressive eyes, clean linework, soft shading, vibrant hair colors, and the characteristic Japanese animation aesthetic. Add cel-shaded lighting and smooth gradients typical of anime art."),
   ("comic", "Transform this image into a dynamic comic book style. Use bold black outlines, Ben-Day dots, halftone patterns, dramatic lighting with high contrast, and vibrant primary colors. Make it look like it's from a vintage superhero comic with action-packed energy."),
   ("watercolor", "Transform this image into a soft watercolor painting style. Use gentle brushstrokes, pastel colors that blend smoothly, transparent washes, organic edges, and the fluid, dreamy quality of watercolor art. Create a delicate, artistic interpretation."),
   ("sketch", "Transform this image into a hand-drawn pencil sketch style. Use cross-hatching, varied line weights, shading with graphite-like strokes, and the organic, imperfect quality of pencil artwork. Make it look like a detailed artist's sketch with visible drawing marks."),
   ("pixar", "Transform this image into a Pixar-style 3D animated movie look. Use soft rounded shapes, glossy surfaces, cinematic lighting with rim lights, warm color palettes, expressive character features, and the polished CGI quality of modern animated films like Toy Story or Finding Nemo."),
   ("retro", "Transform this image into a retro 1950s cartoon style. Use limited color palettes, simple bold shapes, vintage comic aesthetics, grainy texture, flat colors with minimal shading, and the nostalgic look of classic Hanna-Barbera or early Disney cartoons."),
   ("noir", "Transform this image into a dramatic film noir style. Use high contrast black and white, deep shadows, dramatic lighting, sharp angles, moody atmosphere, and the classic detective movie aesthetic. Create strong chiaroscuro effects with bold darks and highlights."),
   ("popart", "Transform this image into Andy Warhol-style pop art. Use bright neon colors, high contrast, repeated patterns, Ben-Day dots, bold flat colors, screen-print effects, and the iconic 1960s pop art aesthetic. Make it bold, graphic, and eye-catching."),
   ("oil", "Transform this image into a classical oil painting style. Use rich textures, visible brushstrokes, deep colors with subtle color mixing, impasto techniques, Renaissance or Impressionist aesthetics, and the timeless quality of traditional fine art oil paintings."),
   ("fantasy", "Transform this image into an epic fantasy art style. Use magical lighting effects, mystical color palettes with purples and blues, ethereal glows, dramatic atmosphere, otherworldly beauty, and the enchanting quality of fantasy book covers or concept art."),
   ("minimalist", "Transform this image into a minimalist art style. Use simple clean lines, limited color palette (2-4 colors max), geometric shapes, negative space, flat design, modern aesthetic, and the elegant simplicity of Scandinavian or Japanese minimalism.")]

/-- Record access stylePrompts[style] of the edge function: a key lookup
that yields the instruction string when the key is present. -/
def stylePromptsGet (style : String) : Option String :=
  (stylePrompts.find? (fun e => e.fst == style)).map (fun e => e.snd)

/-- The expression stylePrompts[style] || stylePrompts.vibrant of the edge
function. The JavaScript || operator also falls back when the looked-up
value is the empty string, since the empty string is falsy. -/
def promptText (style : String) : String :=
  match stylePromptsGet style with
  | some p => if p = "" then vibrantPrompt else p
  | none => vibrantPrompt

/-- The destructuring default in the edge function request parsing:
const (image, style = "vibrant") = await req.json(). An absent style
field becomes the string "vibrant". -/
def resolveStyle (style : Option String) : String := style.getD "vibrant"

/-! ## Remote Stylization Endpoint

Source: src/unnamed/part_002 lines 740-859, the Deno.serve handler of the
cartoonify-image edge function. -/

/-- Body of a JSON response of the edge function: either the success payload
with the cartoon_image field, or the error payload with the error field. -/
inductive RespBody where
  | okImage (cartoonImage : String)
  | err (message : String)
  deriving DecidableEq

/-- An HTTP response of the edge function: status code plus JSON body. -/
structure HttpResponse where
  status : Nat
  body : RespBody
  deriving DecidableEq

/-- Shape of the upstream model reply as the edge function reads it:
data.choices[0].message.images[0].image_url.url. -/
structure UpstreamImageUrl where
  url : String
  deriving DecidableEq

structure UpstreamMessage where
  images : List UpstreamImageUrl
  deriving DecidableEq

structure UpstreamChoice where
  message : UpstreamMessage
  deriving DecidableEq

structure UpstreamData where
  choices : List UpstreamChoice
  deriving DecidableEq

/-- The optional-chaining extraction
data.choices?.[0]?.message?.images?.[0]?.image_url?.url of the edge function. -/
def extractCartoonImage (d : UpstreamData) : Option String :=
  d.choices.head?.bind fun c => (c.message.images.head?).map fun i => i.url

/-- The fetch Response.ok predicate: status in the range 200-299. -/
def respOk (status : Nat) : Bool := 200 ≤ status && status ≤ 299

def rateLimitMsg : String := "Rate limit exceeded. Please try again later."

def paymentMsg : String := "Payment required. Please add credits to your workspace."

/-- The message of the error thrown on an unclassified upstream status:
new Error with the text Gemini AI error: followed by the status. -/
def geminiErrorMsg (status : Nat) : String := "Gemini AI error: " ++ toString status

def noImageMsg : String := "No cartoon image returned from AI"

def notConfiguredMsg : String := "AI service not configured"

def noImageProvidedMsg : String := "No image provided"

/-- The upstream-response portion of the try block of the edge function
(part_002 lines 814-848). A thrown Error is an .error value here; the
surrounding catch turns it into a 500 response (see handleUpstreamResponse).
A 429 status returns the rate-limit response, a 402 the payment response,
any other non-ok status throws Gemini AI error with the status; on an ok
status the first generated image is extracted and the test
if (not cartoonImage) throws the no-image error. That test is a JavaScript
falsiness test: it fires both when the optional chain yields undefined
(the extraction returns none) and when the extracted url is the empty
string, so an empty payload also takes the no-image error path. -/
def upstreamTryBody (status : Nat) (d : UpstreamData) : Except String HttpResponse :=
  if !(respOk status) then
    if status = 429 then .ok ⟨429, .err rateLimitMsg⟩
    else if status = 402 then .ok ⟨402, .err paymentMsg⟩
    else .error (geminiErrorMsg status)
  else
    match extractCartoonImage d with
    | none => .error noImageMsg
    | some u => if u = "" then .error noImageMsg else .ok ⟨200, .okImage u⟩

/-- The try body combined with the catch of the edge function (part_002
lines 850-858): a thrown Error becomes status 500 with the error message
as the error field. -/
def handleUpstreamResponse (status : Nat) (d : UpstreamData) : HttpResponse :=
  match upstreamTryBody status d with
  | .ok r => r
  | .error m => ⟨500, .err m⟩

/-- Modelled from the spec: the generated image a reply contains, in the
sense of section 4.5 step 5 — an empty payload is no generated image. -/
def producedImage (d : UpstreamData) : Option String :=
  match extractCartoonImage d with
  | some u => if u = "" then none else some u
  | none => none

/-- Modelled from the spec: the case list of section 4.5 steps 4-5 and of
claim C4 — rate limit relayed as 429, billing as 402, any other non-success
as a generic upstream error carrying the status, and a success containing
no generated image as the no-image error. Compared against
handleUpstreamResponse, the function read off the code. -/
def relaySpec (status : Nat) (d : UpstreamData) : HttpResponse :=
  if respOk status then
    match producedImage d with
    | some u => ⟨200, .okImage u⟩
    | none => ⟨500, .err noImageMsg⟩
  else if status = 429 then ⟨429, .err rateLimitMsg⟩
  else if status = 402 then ⟨402, .err paymentMsg⟩
  else ⟨500, .err (geminiErrorMsg status)⟩

/-- Every non-200 response carries an error-field body. -/
def errorShaped (r : HttpResponse) : Bool :=
  r.status == 200 ||
    match r.body with
    | .err _ => true
    | .okImage _ => false

/-- What the edge function does with a request before any upstream traffic:
it either responds directly or reaches the upstream fetch with a prompt and
the image. -/
inductive ServeStep where
  | respond (resp : HttpResponse)
  | callUpstream (prompt : String) (image : String)
  deriving DecidableEq

/-- The validation prefix of the edge function handler (part_002 lines
746-812): parse image and style, respond 400 when image is absent or empty
(the falsiness test if not image), resolve the prompt, respond 500 when the
LOVABLE_API_KEY credential is absent, and otherwise proceed to the upstream
fetch with the resolved prompt text and the image. -/
def cartoonifyServeStep (apiKey : Option String) (image : Option String)
    (style : Option String) : ServeStep :=
  match image with
  | none => .respond ⟨400, .err noImageProvidedMsg⟩
  | some img =>
    if img = "" then .respond ⟨400, .err noImageProvidedMsg⟩
    else
      match apiKey with
      | none => .respond ⟨500, .err notConfiguredMsg⟩
      | some _ => .callUpstream (promptText (resolveStyle style)) img

def isUpstreamCall : ServeStep → Bool
  | .callUpstream _ _ => true
  | .respond _ => false

/-! ## Adjustment Stage

Source: src/src/components/ImageEditor.tsx. The canvas context renders the
source image through the CSS filter list

  brightness(b%) contrast(c%) saturate(s%)

which the CSS Filter Effects specification defines as: the filter functions
of the list applied in the order they are written, each a per-pixel color
transform. Channels are normalized to the interval from 0 to 1 and results
clamp to it. We model a raster as its pixel list over exact rationals. -/

/-- The Adjustments record of ImageEditor.tsx: brightness, contrast and
saturation as integer percentages (sliders range over 0-200, default 100). -/
structure Adjustments where
  brightness : Nat
  contrast : Nat
  saturation : Nat
  deriving DecidableEq

/-- The useState initial value and the resetAdjustments target. -/
def defaultAdjustments : Adjustments := ⟨100, 100, 100⟩

/-- A pixel color with channels as exact rationals (normalized 0 to 1). -/
structure Pixel where
  r : ℚ
  g : ℚ
  b : ℚ
  deriving DecidableEq

/-- A raster: pixel dimensions and the pixel list. -/
structure Raster where
  width : Nat
  height : Nat
  pixels : List Pixel
  deriving DecidableEq

def Pixel.Valid (p : Pixel) : Prop :=
  0 ≤ p.r ∧ p.r ≤ 1 ∧ 0 ≤ p.g ∧ p.g ≤ 1 ∧ 0 ≤ p.b ∧ p.b ≤ 1

instance (p : Pixel) : Decidable p.Valid := by
  unfold Pixel.Valid; infer_instance

def Raster.Valid (img : Raster) : Prop := ∀ p ∈ img.pixels, p.Valid

/-- Channel clamp to the representable range. -/
def clamp01 (x : ℚ) : ℚ := max 0 (min 1 x)

/-- A percentage slider value as the multiplier of the CSS filter function
(100 percent is the multiplier 1). -/
def pct (n : Nat) : ℚ := (n : ℚ) / 100

/-- CSS brightness(amount): each channel scaled by the amount. -/
def brightnessPx (amount : ℚ) (p : Pixel) : Pixel :=
  ⟨clamp01 (p.r * amount), clamp01 (p.g * amount), clamp01 (p.b * amount)⟩

/-- CSS contrast(amount): each channel pivoted about one half. -/
def contrastPx (amount : ℚ) (p : Pixel) : Pixel :=
  ⟨clamp01 ((p.r - 1/2) * amount + 1/2),
   clamp01 ((p.g - 1/2) * amount + 1/2),
   clamp01 ((p.b - 1/2) * amount + 1/2)⟩

/-- CSS saturate(amount): the standard luminance-weighted saturation matrix
of the Filter Effects specification, with weights 0.213, 0.715, 0.072. -/
def saturatePx (amount : ℚ) (p : Pixel) : Pixel :=
  ⟨clamp01 ((213/1000 + 787/1000 * amount) * p.r
      + (715/1000 - 715/1000 * amount) * p.g
      + (72/1000 - 72/1000 * amount) * p.b),
   clamp01 ((213/1000 - 213/1000 * amount) * p.r
      + (715/1000 + 285/1000 * amount) * p.g
      + (72/1000 - 72/1000 * amount) * p.b),
   clamp01 ((213/1000 - 213/1000 * amount) * p.r
      + (715/1000 - 715/1000 * amount) * p.g
      + (72/1000 + 928/1000 * amount) * p.b)⟩

/-- The per-pixel effect of the filter list of applyFilters in
ImageEditor.tsx: brightness, then contrast, then saturate, in the order
the filter string lists them. -/
def filterPx (adj : Adjustments) (p : Pixel) : Pixel :=
  saturatePx (pct adj.saturation)
    (contrastPx (pct adj.contrast) (brightnessPx (pct adj.brightness) p))

/-- The applyFilters function of ImageEditor.tsx: the canvas takes the
dimensions of the source image (canvas.width = img.width and likewise for
height, which also clears the canvas) and drawImage renders every source
pixel through the filter in force. -/
def applyFilters (img : Raster) (adj : Adjustments) : Raster :=
  ⟨img.width, img.height, img.pixels.map (filterPx adj)⟩

/-- The brightness filter function alone, as a whole-raster pass. -/
def brightnessStage (amount : ℚ) (img : Raster) : Raster :=
  ⟨img.width, img.height, img.pixels.map (brightnessPx amount)⟩

/-- The contrast filter function alone, as a whole-raster pass. -/
def contrastStage (amount : ℚ) (img : Raster) : Raster :=
  ⟨img.width, img.height, img.pixels.map (contrastPx amount)⟩

/-- The saturate filter function alone, as a whole-raster pass. -/
def saturateStage (amount : ℚ) (img : Raster) : Raster :=
  ⟨img.width, img.height, img.pixels.map (saturatePx amount)⟩

/-- An encoded image payload with its MIME type and logical name. -/
structure ImageArtifact where
  name : String
  mime : String
  raster : Raster
  deriving DecidableEq

/-- The exportAdjustedImage function of ImageEditor.tsx: canvas.toBlob with
the image/png type, wrapped in a File keeping the source file name. PNG is
lossless, so the artifact carries the rendered raster unchanged. -/
def exportAdjustedImage (img : Raster) (sourceName : String) : ImageArtifact :=
  ⟨sourceName, "image/png", img⟩

/-- The local state of the ImageEditor component: the adjustments record
and the decoded source image held by useState. -/
structure EditorState where
  adjustments : Adjustments
  originalImage : Option Raster
  deriving DecidableEq

/-- The useState initial values of ImageEditor.tsx: default adjustments,
no decoded image yet. -/
def initialEditorState : EditorState := ⟨defaultAdjustments, none⟩

/-- The effect of ImageEditor.tsx keyed on the imageFile prop: once the new
image decodes, setOriginalImage stores it. No other state changes: in
particular the adjustments state is left as it is. -/
def imageLoaded (img : Raster) (s : EditorState) : EditorState :=
  { s with originalImage := some img }

/-- The brightness slider handler: setAdjustments keeps the other fields. -/
def setBrightness (v : Nat) (s : EditorState) : EditorState :=
  { s with adjustments := { s.adjustments with brightness := v } }

/-- The contrast slider handler. -/
def setContrast (v : Nat) (s : EditorState) : EditorState :=
  { s with adjustments := { s.adjustments with contrast := v } }

/-- The saturation slider handler. -/
def setSaturation (v : Nat) (s : EditorState) : EditorState :=
  { s with adjustments := { s.adjustments with saturation := v } }

/-- The resetAdjustments handler of ImageEditor.tsx: all three parameters
back to 100 in one state update. -/
def resetAdjustments (s : EditorState) : EditorState :=
  { s with adjustments := defaultAdjustments }

/-- The raster shown and exported for a given editor state: the effect on
adjustments or originalImage re-runs applyFilters on the stored original
with the adjustments in force. -/
def editorRender (s : EditorState) : Option Raster :=
  s.originalImage.map fun img => applyFilters img s.adjustments

/-! ## Index Page Session State and Dispatch Client

Source: src/unnamed/part_002 lines 12-67, the Index component. -/

/-- A File object as the session state holds it (identity is what the
claims need; the payload itself lives in the Raster model above). -/
structure ImageFile where
  name : String
  deriving DecidableEq

/-- The five useState cells of the Index component. -/
structure AppState where
  selectedFile : Option ImageFile
  adjustedFile : Option ImageFile
  cartoonImage : Option String
  isProcessing : Bool
  selectedStyle : String
  deriving DecidableEq

/-- The useState initial values of Index. -/
def initialAppState : AppState := ⟨none, none, none, false, "vibrant"⟩

/-- handleImageSelect of Index (part_002 lines 19-23): store the file as
both the selected and the adjusted file and clear the cartoon result. -/
def handleImageSelect (f : ImageFile) (s : AppState) : AppState :=
  { s with selectedFile := some f, adjustedFile := some f, cartoonImage := none }

/-- handleImageAdjusted of Index: replace the adjusted file only. -/
def handleImageAdjusted (f : ImageFile) (s : AppState) : AppState :=
  { s with adjustedFile := some f }

/-- handleStyleChange of Index (part_002 lines 29-32): store the style and
clear the cartoon result. -/
def handleStyleChange (style : String) (s : AppState) : AppState :=
  { s with selectedStyle := style, cartoonImage := none }

/-- Observable steps of one handleCartoonify run, in event-loop order. -/
inductive DispatchEv where
  | setProcessing (b : Bool)
  | invokeRequest (style : String)
  | setCartoon (image : String)
  | toastSuccess
  | toastError (message : String)
  | unhandledRejection (message : String)
  deriving DecidableEq

/-- What the supabase.functions.invoke call comes back with: an error value,
or a data value whose cartoon_image field may be absent. -/
inductive InvokeOutcome where
  | invokeError (message : String)
  | invokeData (cartoonImage : Option String)
  deriving DecidableEq

/-- handleCartoonify of Index (part_002 lines 34-67), embedded as the
ordered list of its observable steps plus the final state, for a given
outcome of the remote call. The order is fixed by the JavaScript event
loop: the synchronous body runs setIsProcessing(true), assigns the
reader.onloadend callback, starts reader.readAsDataURL (which completes in
a later event-loop turn), leaves the try block without an exception, and
so runs the finally clause setIsProcessing(false) before returning. Only
afterwards does onloadend fire and issue the invoke call. The onloadend
callback is an async function: an exception thrown inside it (the throw
error on an invoke error, or the throw of No cartoon image returned when
the data has no cartoon_image field) rejects that callback promise; the
try/catch of handleCartoonify has already exited, so nothing catches it
and the catch branch with toast.error never runs for these paths. -/
def handleCartoonify (s : AppState) (outcome : InvokeOutcome) :
    List DispatchEv × AppState :=
  match s.adjustedFile with
  | none => ([], s)
  | some _ =>
    let pre : List DispatchEv :=
      [.setProcessing true, .setProcessing false, .invokeRequest s.selectedStyle]
    match outcome with
    | .invokeError m =>
        (pre ++ [.unhandledRejection m], { s with isProcessing := false })
    | .invokeData (some img) =>
        (pre ++ [.setCartoon img, .toastSuccess],
         { s with isProcessing := false, cartoonImage := some img })
    | .invokeData none =>
        (pre ++ [.unhandledRejection "No cartoon image returned"],
         { s with isProcessing := false })

/-- The value the isProcessing flag holds at the moment the invoke request
is issued, read off an event list: none when no request is issued. -/
def processingAtInvoke : List DispatchEv → Bool → Option Bool
  | [], _ => none
  | .setProcessing b :: rest, _ => processingAtInvoke rest b
  | .invokeRequest _ :: _, cur => some cur
  | _ :: rest, cur => processingAtInvoke rest cur

/-- A concrete session state with an adjusted file present, ready to
submit. -/
def readyState : AppState :=
  ⟨some ⟨"photo.png"⟩, some ⟨"photo.png"⟩, none, false, "vibrant"⟩

/-! ## Capture Source

Source: src/src/components/ImageUploader.tsx lines 216-382, the uploader
variant with quality presets and the capture gallery. Media streams are a
device resource: the model tracks the set of acquired-and-not-yet-stopped
stream ids next to the component state, and the getUserMedia outcome and
the presence of the video sink are explicit inputs. -/

/-- A CapturedImage entry of ImageUploader.tsx: the snapshot file, its
preview encoding, and the id taken from Date.now().toString(). -/
structure CapturedImage where
  fileName : String
  preview : String
  id : String
  deriving DecidableEq

/-- The uploader component state: preview and webcam flag, the capture
gallery and its selection, plus the stream bookkeeping (streamRef holds
the current stream, openStreams the acquired-and-unstopped streams,
nextStreamId a supply of fresh ids). -/
structure UploaderState where
  preview : Option String
  isWebcamActive : Bool
  capturedImages : List CapturedImage
  selectedImageId : Option String
  streamRef : Option Nat
  openStreams : List Nat
  nextStreamId : Nat
  deriving DecidableEq

def initialUploaderState : UploaderState := ⟨none, false, [], none, none, [], 0⟩

/-- stopWebcam of ImageUploader.tsx (lines 295-307): stop every track of
the stream held by streamRef (the stream leaves the open set), clear
streamRef and the video sink, and clear the webcam flag. Idempotent when
no stream is held. -/
def stopWebcam (s : UploaderState) : UploaderState :=
  let s1 :=
    match s.streamRef with
    | some id => { s with openStreams := s.openStreams.erase id, streamRef := none }
    | none => s
  { s1 with isWebcamActive := false }

/-- startWebcam of ImageUploader.tsx (lines 243-293): if the webcam flag is
set, stop the existing stream first; then await getUserMedia. On success
(acquireOk) the new stream is stored in streamRef and joins the open set;
then the if videoRef.current guard decides whether the video sink is wired
up and the webcam flag set (on both the play branch and the
blocked-autoplay branch). The video element, however, is rendered only
inside the isWebcamActive branch of the component JSX, so at the time the
await resumes, videoRef.current is non-null exactly when the state
committed during the await has the webcam flag set — that is the flag
value after the synchronous stop, s1.isWebcamActive. On an acquisition
failure only the error toast runs. -/
def startWebcam (acquireOk : Bool) (s : UploaderState) : UploaderState :=
  let s1 := if s.isWebcamActive then stopWebcam s else s
  if acquireOk then
    let id := s1.nextStreamId
    let s2 := { s1 with openStreams := s1.openStreams ++ [id],
                        streamRef := some id, nextStreamId := id + 1 }
    if s1.isWebcamActive then { s2 with isWebcamActive := true } else s2
  else s1

/-- capturePhoto of ImageUploader.tsx (lines 334-361): snapshot the video
frame, build a File named webcam-(now).png, and append a CapturedImage
with id Date.now().toString() to the gallery. Nothing is replaced and no
other state cell changes. now is the Date.now() value, framePreview the
data-URI encoding of the frame. -/
def capturePhoto (now : Nat) (framePreview : String) (s : UploaderState) :
    UploaderState :=
  { s with capturedImages := s.capturedImages ++
      [⟨"webcam-" ++ toString now ++ ".png", framePreview, toString now⟩] }

/-- deleteImage of ImageUploader.tsx (lines 363-369): drop the entry from
the gallery; when it was the selected one, clear the selection and the
preview. -/
def deleteImage (id : String) (s : UploaderState) : UploaderState :=
  let s1 := { s with capturedImages := s.capturedImages.filter fun img => img.id != id }
  if s.selectedImageId = some id then
    { s1 with selectedImageId := none, preview := none }
  else s1

/-- selectImage of ImageUploader.tsx (lines 371-375): mark the entry
selected and show its preview (it also hands the file to onImageSelect,
which is the Index handleImageSelect modelled above). -/
def selectImage (image : CapturedImage) (s : UploaderState) : UploaderState :=
  { s with selectedImageId := some image.id, preview := some image.preview }

/-! ## Helper lemmas -/

theorem list_map_self {α : Type} {l : List α} {f : α → α} (h : ∀ a ∈ l, f a = a) :
    l.map f = l := by
  induction l with
  | nil => rfl
  | cons x xs ih =>
    simp only [List.map_cons, h x (List.mem_cons_self x xs)]
    rw [ih fun a ha => h a (List.mem_cons_of_mem x ha)]

theorem clamp01_eq_self {x : ℚ} (h0 : 0 ≤ x) (h1 : x ≤ 1) : clamp01 x = x := by
  unfold clamp01
  rw [min_eq_right h1, max_eq_right h0]

theorem brightnessPx_one {p : Pixel} (h : p.Valid) : brightnessPx 1 p = p := by
  obtain ⟨h0r, h1r, h0g, h1g, h0b, h1b⟩ := h
  simp [brightnessPx, clamp01_eq_self h0r h1r, clamp01_eq_self h0g h1g,
    clamp01_eq_self h0b h1b]

theorem contrastPx_one {p : Pixel} (h : p.Valid) : contrastPx 1 p = p := by
  obtain ⟨h0r, h1r, h0g, h1g, h0b, h1b⟩ := h
  have er : (p.r - 1/2) * 1 + 1/2 = p.r := by ring
  have eg : (p.g - 1/2) * 1 + 1/2 = p.g := by ring
  have eb : (p.b - 1/2) * 1 + 1/2 = p.b := by ring
  simp [contrastPx, er, eg, eb, clamp01_eq_self h0r h1r, clamp01_eq_self h0g h1g,
    clamp01_eq_self h0b h1b]

theorem saturatePx_one {p : Pixel} (h : p.Valid) : saturatePx 1 p = p := by
  obtain ⟨h0r, h1r, h0g, h1g, h0b, h1b⟩ := h
  unfold saturatePx
  have er : (213/1000 + 787/1000 * 1) * p.r + (715/1000 - 715/1000 * 1) * p.g
      + (72/1000 - 72/1000 * 1) * p.b = p.r := by ring
  have eg : (213/1000 - 213/1000 * 1) * p.r + (715/1000 + 285/1000 * 1) * p.g
      + (72/1000 - 72/1000 * 1) * p.b = p.g := by ring
  have eb : (213/1000 - 213/1000 * 1) * p.r + (715/1000 - 715/1000 * 1) * p.g
      + (72/1000 + 928/1000 * 1) * p.b = p.b := by ring
  rw [er, eg, eb, clamp01_eq_self h0r h1r, clamp01_eq_self h0g h1g,
    clamp01_eq_self h0b h1b]

theorem filterPx_default {p : Pixel} (h : p.Valid) : filterPx defaultAdjustments p = p := by
  have hp : pct 100 = 1 := by norm_num [pct]
  rw [filterPx, defaultAdjustments, hp, brightnessPx_one h, contrastPx_one h,
    saturatePx_one h]

theorem applyFilters_default {img : Raster} (h : img.Valid) :
    applyFilters img defaultAdjustments = img := by
  unfold applyFilters
  rw [list_map_self fun p hp => filterPx_default (h p hp)]

/-! ## Claim theorems -/

/-- C10: selecting a new source image or changing the selected style clears
any previously returned cartoon result, and each of the two handlers leaves
the other selection untouched. -/
theorem selectionClearsStaleResult (s : AppState) (f : ImageFile) (style : String) :
    (handleImageSelect f s).cartoonImage = none ∧
    (handleStyleChange style s).cartoonImage = none ∧
    (handleImageSelect f s).selectedStyle = s.selectedStyle ∧
    (handleStyleChange style s).selectedFile = s.selectedFile ∧
    (handleStyleChange style s).adjustedFile = s.adjustedFile :=
  ⟨rfl, rfl, rfl, rfl, rfl⟩

/-- C2 counterexample: with a brightness of 50 in force, loading a new raw
image does not reset the adjustment triple to the default, and the raster
the editor renders for the new image is not the unmodified new image: the
stale brightness is applied to it. -/
theorem adjustmentsPersistAcrossImageChange :
    ((imageLoaded ⟨1, 1, [⟨1/2, 1/2, 1/2⟩]⟩
        ⟨⟨50, 100, 100⟩, some ⟨1, 1, [⟨1, 1, 1⟩]⟩⟩).adjustments ≠ defaultAdjustments) ∧
    editorRender (imageLoaded ⟨1, 1, [⟨1/2, 1/2, 1/2⟩]⟩
        ⟨⟨50, 100, 100⟩, some ⟨1, 1, [⟨1, 1, 1⟩]⟩⟩) ≠
      some ⟨1, 1, [⟨1/2, 1/2, 1/2⟩]⟩ := by
  have hpx : filterPx ⟨50, 100, 100⟩ ⟨1/2, 1/2, 1/2⟩ = ⟨1/4, 1/4, 1/4⟩ := by
    unfold filterPx brightnessPx contrastPx saturatePx pct clamp01
    norm_num [min_def, max_def]
  have hrender : editorRender (imageLoaded ⟨1, 1, [⟨1/2, 1/2, 1/2⟩]⟩
      ⟨⟨50, 100, 100⟩, some ⟨1, 1, [⟨1, 1, 1⟩]⟩⟩) = some ⟨1, 1, [⟨1/4, 1/4, 1/4⟩]⟩ := by
    show some (applyFilters ⟨1, 1, [⟨1/2, 1/2, 1/2⟩]⟩ ⟨50, 100, 100⟩) = _
    unfold applyFilters
    simp only [List.map_cons, List.map_nil]
    rw [hpx]
  refine ⟨by decide, ?_⟩
  rw [hrender]
  intro hEq
  simp only [Option.some.injEq, Raster.mk.injEq, List.cons.injEq, Pixel.mk.injEq] at hEq
  norm_num at hEq

/-- C2 amended: loading a new raw image stores it and leaves the adjustment
triple unchanged, so the triple in force (default only at the initial mount
or after an explicit reset) is applied to the new image; at the session
level selecting a new image makes the unmodified new file the active
artifact. -/
theorem imageChangeKeepsAdjustments (s : EditorState) (img : Raster)
    (f : ImageFile) (app : AppState) :
    (imageLoaded img s).adjustments = s.adjustments ∧
    (imageLoaded img s).originalImage = some img ∧
    initialEditorState.adjustments = defaultAdjustments ∧
    (resetAdjustments s).adjustments = defaultAdjustments ∧
    (handleImageSelect f app).adjustedFile = some f ∧
    editorRender (imageLoaded img s) = some (applyFilters img s.adjustments) :=
  ⟨rfl, rfl, rfl, rfl, rfl, rfl⟩

/-- C1: refuted on the code. In handleCartoonify the finally clause runs at
the end of the synchronous body, before the reader.onloadend callback
issues the stylization request, so the processing flag is already false at
the moment the request is issued (it is not true while the request is
outstanding, and a second submission is not blocked); and on a failing
invoke the rejection escapes the already-exited try/catch, so no toastError
step ever runs. The flag does end false on every path. -/
theorem processingClearedBeforeRequestIssued :
    processingAtInvoke (handleCartoonify readyState (.invokeError "boom")).fst false
      = some false ∧
    DispatchEv.unhandledRejection "boom" ∈
      (handleCartoonify readyState (.invokeError "boom")).fst ∧
    (∀ m, DispatchEv.toastError m ∉
      (handleCartoonify readyState (.invokeError "boom")).fst) ∧
    processingAtInvoke (handleCartoonify readyState (.invokeData (some "img"))).fst false
      = some false ∧
    (handleCartoonify readyState (.invokeError "boom")).snd.isProcessing = false ∧
    (handleCartoonify readyState (.invokeData (some "img"))).snd.isProcessing = false := by
  refine ⟨by decide, by decide, ?_, by decide, by decide, by decide⟩
  intro m
  simp [handleCartoonify, readyState]

/-- C4: the edge function relays every upstream outcome exactly as the spec
case list states it — 429 as a rate-limit error with status 429, 402 as a
payment error with status 402, any other non-success as a generic error
whose message carries the upstream status, a success containing no
generated image (the extraction yields nothing, or an empty payload, the
falsiness of the source test) as the no-image error — and every non-200
response carries an error-field body. The last conjunct pins the
empty-payload path: an ok reply whose first image url is the empty string
gets the 500 no-image error. -/
theorem upstreamRelayClassified (status : Nat) (d : UpstreamData) :
    handleUpstreamResponse status d = relaySpec status d ∧
    (∃ pre : String, geminiErrorMsg status = pre ++ toString status) ∧
    errorShaped (handleUpstreamResponse status d) = true ∧
    handleUpstreamResponse 200 ⟨[⟨⟨[⟨""⟩]⟩⟩]⟩ = ⟨500, .err noImageMsg⟩ := by
  have hmain : handleUpstreamResponse status d = relaySpec status d := by
    unfold handleUpstreamResponse upstreamTryBody relaySpec producedImage
    cases hok : respOk status with
    | true =>
      simp only [hok, Bool.not_true, Bool.false_eq_true, if_false, if_true]
      cases hx : extractCartoonImage d with
      | none => simp
      | some u => by_cases hu : u = "" <;> simp [hu]
    | false =>
      simp only [hok, Bool.not_false, Bool.false_eq_true, if_false, if_true]
      by_cases h429 : status = 429
      · simp [h429]
      · by_cases h402 : status = 402 <;> simp [h429, h402]
  refine ⟨hmain, ⟨"Gemini AI error: ", rfl⟩, ?_, by decide⟩
  rw [hmain]
  unfold relaySpec producedImage errorShaped
  by_cases hok : respOk status = true
  · simp only [hok, if_true]
    cases hx : extractCartoonImage d with
    | none => simp
    | some u => by_cases hu : u = "" <;> simp [hu]
  · simp only [hok, Bool.false_eq_true, if_false]
    by_cases h429 : status = 429
    · simp [h429]
    · by_cases h402 : status = 402 <;> simp [h429, h402]

/-- C5: a request without an image (absent or empty, the falsiness test)
gets a 400 response and never reaches the upstream call, and a request with
an image but without the server credential gets a 500 configuration
response before the upstream call. -/
theorem endpointValidatesBeforeUpstream (key : Option String) (sty : Option String)
    (img : String) (h : img ≠ "") :
    cartoonifyServeStep key none sty = .respond ⟨400, .err noImageProvidedMsg⟩ ∧
    isUpstreamCall (cartoonifyServeStep key none sty) = false ∧
    cartoonifyServeStep key (some "") sty = .respond ⟨400, .err noImageProvidedMsg⟩ ∧
    isUpstreamCall (cartoonifyServeStep key (some "") sty) = false ∧
    cartoonifyServeStep none (some img) sty = .respond ⟨500, .err notConfiguredMsg⟩ ∧
    isUpstreamCall (cartoonifyServeStep none (some img) sty) = false := by
  unfold cartoonifyServeStep
  simp [h, isUpstreamCall]

/-- Witness for C5 at a concrete data-URI image. -/
theorem endpointValidatesBeforeUpstream_witness :
    cartoonifyServeStep none (some "data:image/png;base64,AAAA") (some "anime") =
      .respond ⟨500, .err notConfiguredMsg⟩ := by
  have h : ("data:image/png;base64,AAAA" : String) ≠ "" := by decide
  exact (endpointValidatesBeforeUpstream none (some "anime")
    "data:image/png;base64,AAAA" h).2.2.2.2.1

/-- C6: the default triple 100-100-100 is a true identity of the Adjustment
Stage — rendering any valid source under it is pixel-identical to the
source, and after an image load with any triple in force, the reset
operation makes the editor render exactly the original source again. -/
theorem defaultAdjustmentsIdentity (img : Raster) (s : EditorState) (hv : img.Valid) :
    applyFilters img defaultAdjustments = img ∧
    editorRender (resetAdjustments (imageLoaded img s)) = some img := by
  have h1 := applyFilters_default hv
  refine ⟨h1, ?_⟩
  show some (applyFilters img defaultAdjustments) = some img
  rw [h1]

/-- Witness for C6 at a one-pixel raster and a non-default editor state. -/
theorem defaultAdjustmentsIdentity_witness :
    applyFilters ⟨1, 1, [⟨1/2, 1/3, 1⟩]⟩ defaultAdjustments = ⟨1, 1, [⟨1/2, 1/3, 1⟩]⟩ ∧
    editorRender (resetAdjustments (imageLoaded ⟨1, 1, [⟨1/2, 1/3, 1⟩]⟩
      ⟨⟨50, 180, 0⟩, none⟩)) = some ⟨1, 1, [⟨1/2, 1/3, 1⟩]⟩ := by
  have hv : (Raster.mk 1 1 [⟨1/2, 1/3, 1⟩]).Valid := by
    intro p hp
    simp only [List.mem_singleton] at hp
    subst hp
    refine ⟨by norm_num, by norm_num, by norm_num, by norm_num, by norm_num, by norm_num⟩
  exact ⟨(defaultAdjustmentsIdentity ⟨1, 1, [⟨1/2, 1/3, 1⟩]⟩ ⟨⟨50, 180, 0⟩, none⟩ hv).1,
    (defaultAdjustmentsIdentity ⟨1, 1, [⟨1/2, 1/3, 1⟩]⟩ ⟨⟨50, 180, 0⟩, none⟩ hv).2⟩

/-- C7: for every source raster and triple the Adjustment Stage yields one
output raster of identical pixel dimensions and pixel count, equal to the
three stage passes composed in the order brightness, then contrast, then
saturation, and the exported artifact is typed image/png (lossless) with
the source name and the rendered raster unchanged. -/
theorem adjustmentPipelineShape (img : Raster) (adj : Adjustments) (sourceName : String) :
    (applyFilters img adj).width = img.width ∧
    (applyFilters img adj).height = img.height ∧
    (applyFilters img adj).pixels.length = img.pixels.length ∧
    applyFilters img adj =
      saturateStage (pct adj.saturation)
        (contrastStage (pct adj.contrast) (brightnessStage (pct adj.brightness) img)) ∧
    (exportAdjustedImage (applyFilters img adj) sourceName).mime = "image/png" ∧
    (exportAdjustedImage (applyFilters img adj) sourceName).name = sourceName ∧
    (exportAdjustedImage (applyFilters img adj) sourceName).raster = applyFilters img adj := by
  refine ⟨rfl, rfl, by simp [applyFilters], ?_, rfl, rfl, rfl⟩
  unfold applyFilters brightnessStage contrastStage saturateStage
  simp only [List.map_map]
  rfl

/-- C8: refuted on the code. The video element is rendered only inside the
isWebcamActive branch of the JSX and setIsWebcamActive(true) runs only
under the if videoRef.current guard, so a startWebcam run from any
reachable state (webcam flag false) acquires its stream but never sets the
flag. A second startWebcam with no stopWebcam in between therefore skips
the stop-existing-stream guard — despite the comment in the source saying
it stops any existing stream before starting a new one — and overwrites
streamRef without stopping the first stream: after two successive
successful starts from the initial state, both acquired streams are still
open (two concurrent device handles, the first one leaked and no longer
reachable through streamRef), where the claim requires exactly one. -/
theorem doubleStartLeaksStream :
    (startWebcam true initialUploaderState).streamRef = some 0 ∧
    (startWebcam true initialUploaderState).isWebcamActive = false ∧
    (startWebcam true (startWebcam true initialUploaderState)).openStreams = [0, 1] ∧
    ((startWebcam true (startWebcam true initialUploaderState)).openStreams).length = 2 ∧
    (0 : Nat) ∈ (startWebcam true (startWebcam true initialUploaderState)).openStreams ∧
    (startWebcam true (startWebcam true initialUploaderState)).streamRef = some 1 := by
  refine ⟨by decide, by decide, by decide, by decide, by decide, by decide⟩

/-- C9: three capturePhoto invocations in a fresh capture session append
three distinct CapturedImage entries with pairwise distinct ids (the
Date.now timestamps of separate invocations give distinct id strings), and
deleting the currently selected entry clears the selection and the
preview. -/
theorem captureSessionAppends (s : UploaderState) (t1 t2 t3 : Nat)
    (p1 p2 p3 : String) (entry : CapturedImage)
    (h0 : s.capturedImages = [])
    (h12 : toString t1 ≠ toString t2) (h13 : toString t1 ≠ toString t3)
    (h23 : toString t2 ≠ toString t3) :
    ((capturePhoto t3 p3 (capturePhoto t2 p2 (capturePhoto t1 p1 s))).capturedImages).length
      = 3 ∧
    ((capturePhoto t3 p3 (capturePhoto t2 p2 (capturePhoto t1 p1 s))).capturedImages.map
      (fun c => c.id)).Nodup ∧
    (capturePhoto t3 p3 (capturePhoto t2 p2 (capturePhoto t1 p1 s))).capturedImages =
      [⟨"webcam-" ++ toString t1 ++ ".png", p1, toString t1⟩,
       ⟨"webcam-" ++ toString t2 ++ ".png", p2, toString t2⟩,
       ⟨"webcam-" ++ toString t3 ++ ".png", p3, toString t3⟩] ∧
    (deleteImage entry.id (selectImage entry s)).selectedImageId = none ∧
    (deleteImage entry.id (selectImage entry s)).preview = none := by
  refine ⟨?_, ?_, ?_, ?_, ?_⟩
  · simp [capturePhoto, h0]
  · simp [capturePhoto, h0, h12, h13, h23]
  · simp [capturePhoto, h0]
  · simp [deleteImage, selectImage]
  · simp [deleteImage, selectImage]

/-- Witness for C9 at three concrete timestamps. -/
theorem captureSessionAppends_witness :
    ((capturePhoto 3 "p3" (capturePhoto 2 "p2"
      (capturePhoto 1 "p1" initialUploaderState))).capturedImages).length = 3 ∧
    (deleteImage "i" (selectImage ⟨"f", "p", "i"⟩ initialUploaderState)).selectedImageId
      = none := by
  have h12 : toString (1 : Nat) ≠ toString (2 : Nat) := by decide
  have h13 : toString (1 : Nat) ≠ toString (3 : Nat) := by decide
  have h23 : toString (2 : Nat) ≠ toString (3 : Nat) := by decide
  exact ⟨(captureSessionAppends initialUploaderState 1 2 3 "p1" "p2" "p3"
      ⟨"f", "p", "i"⟩ rfl h12 h13 h23).1,
    (captureSessionAppends initialUploaderState 1 2 3 "p1" "p2" "p3"
      ⟨"f", "p", "i"⟩ rfl h12 h13 h23).2.2.2.1⟩

end CartoonMagic
